import Mathlib

set_option maxRecDepth 4000

/-!
Shallow embedding of the 6502 CPU core in `src/cpu.cpp` of the nes-emulator
repository, together with theorems settling the specification claims.

Machine bytes and 16-bit addresses are modelled as `Nat` with explicit
`% 0x100` / `% 0x10000` at the points where the C++ code truncates
(`byte_t` casts, `maddr_t` arithmetic, `addr8_t` stack-pointer wraparound).
The memory bus and the 256-byte stack array are total functions `Nat → Nat`;
reads through the bus mask to a byte, mirroring the `read(address)->u8`
bus contract.  Debug-build `assert`s compile to nothing in release builds;
the one interesting assertion (`assert(0)` on a non-NMI latched interrupt)
is recorded in an explicit `irqAssertFailed` field of the execution result.
-/

namespace Nes

/-- 16-bit address truncation (`maddr_t` arithmetic wraps at 2^16). -/
def m16 (n : Nat) : Nat := n % 0x10000

/-- 8-bit truncation (`byte_t` / `_reg8_t` casts wrap at 2^8). -/
def m8 (n : Nat) : Nat := n % 0x100

/-- `enum PSW` flag bit `F_CARRY`. -/
def F_CARRY : Nat := 0x1

/-- `enum PSW` flag bit `F_ZERO`. -/
def F_ZERO : Nat := 0x2

/-- `enum PSW` flag bit `F_INTERRUPT_OFF` (InterruptDisable). -/
def F_INTERRUPT_OFF : Nat := 0x4

/-- `enum PSW` flag bit `F_BCD` (= `F_DECIMAL`). -/
def F_BCD : Nat := 0x8

/-- `enum PSW` flag bit `F_BREAK`. -/
def F_BREAK : Nat := 0x10

/-- `enum PSW` flag bit `F_NOTUSED` (the Reserved bit, always set). -/
def F_NOTUSED : Nat := 0x20

/-- `enum PSW` flag bit `F_OVERFLOW`. -/
def F_OVERFLOW : Nat := 0x40

/-- `enum PSW` flag bit `F_NEGATIVE` (= `F_SIGN`). -/
def F_NEGATIVE : Nat := 0x80

/-- `VECTOR_NMI = 0xFFFA`. -/
def VECTOR_NMI : Nat := 0xFFFA

/-- `VECTOR_RESET = 0xFFFC`. -/
def VECTOR_RESET : Nat := 0xFFFC

/-- `VECTOR_IRQ = 0xFFFE`. -/
def VECTOR_IRQ : Nat := 0xFFFE

/-- `enum IRQ` request kinds (from the repository's cpu header). -/
inductive IRQ where
  | NONE
  | NMI
  | BRK
  | RST
deriving DecidableEq, Repr

/-- The 6502 instruction mnemonics of the dispatch switch in
`CpuExecOneInst`, plus `INS_UNKNOWN` for table entries that reach the
switch's `default:` case (illegal/unimplemented opcodes). -/
inductive Instr where
  | INS_ADC | INS_AND | INS_ASLA | INS_ASL
  | INS_BCC | INS_BCS | INS_BEQ | INS_BMI | INS_BNE | INS_BPL | INS_BVC | INS_BVS
  | INS_BRK | INS_BIT
  | INS_CLC | INS_CLD | INS_CLI | INS_CLV
  | INS_CMP | INS_CPX | INS_CPY
  | INS_DEC | INS_DEX | INS_DEY
  | INS_EOR
  | INS_INC | INS_INX | INS_INY
  | INS_JMP | INS_JSR
  | INS_LDA | INS_LDX | INS_LDY
  | INS_LSR | INS_LSRA
  | INS_NOP | INS_ORA
  | INS_PHA | INS_PHP | INS_PLA | INS_PLP
  | INS_ROL | INS_ROLA | INS_ROR | INS_RORA
  | INS_RTI | INS_RTS
  | INS_SBC
  | INS_SEC | INS_SED | INS_SEI
  | INS_STA | INS_STX | INS_STY
  | INS_TAX | INS_TAY | INS_TSX | INS_TXA | INS_TXS | INS_TYA
  | INS_UNKNOWN
deriving DecidableEq, Repr

/-- The addressing-mode tags of the addressing switch in `CpuExecOneInst`. -/
inductive AddrMode where
  | ADR_IMP | ADR_ZP | ADR_REL | ADR_ABS | ADR_IMM
  | ADR_ZPX | ADR_ZPY | ADR_ABSX | ADR_ABSY
  | ADR_INDX | ADR_INDY | ADR_IND
deriving DecidableEq, Repr

/-- One row of the opcode metadata table (`struct M6502_OPCODE` as returned
by `ParseOp`): instruction tag, addressing mode, base cycle count,
instruction size in bytes.  The table itself lives outside the CPU core
(`optable.h`), so executions are parameterised by a `Nat → OpInfo` lookup. -/
structure OpInfo where
  inst : Instr
  addrmode : AddrMode
  cycles : Nat
  size : Nat
deriving DecidableEq, Repr

/-- The CPU state: `A`, `X`, `Y`, `SP`, `P`, `PC`, the memory bus, the
dedicated 256-byte stack array, the interrupt latch (`irqRequested`,
`irqType`) and the frame-scheduler cycle counter. -/
structure CpuState where
  A : Nat
  X : Nat
  Y : Nat
  SP : Nat
  P : Nat
  PC : Nat
  mem : Nat → Nat
  stack : Nat → Nat
  irqRequested : Bool
  irqType : IRQ
  cycles : Nat

/-- Point update of a `Nat → Nat` map. -/
def updateFn (f : Nat → Nat) (i v : Nat) : Nat → Nat :=
  fun j => if j = i then v else f j

/-- Modelled from the spec: the Bus contract `read(address: u16) -> u8`
(the mapper sources `mmc.h`/`ppu.h` behind `read6502`/`readCode`/
`loadOperand` are not part of the CPU core).  The address is taken mod
2^16 and the returned value is a byte. -/
def busRead (s : CpuState) (a : Nat) : Nat := s.mem (a % 0x10000) % 0x100

/-- Modelled from the spec: the Bus contract `write(address: u16, value: u8)`
(`write6502` from the mapper headers, which are not part of the core). -/
def busWrite (s : CpuState) (a v : Nat) : CpuState :=
  { s with mem := updateFn s.mem (a % 0x10000) (v % 0x100) }

/-- Modelled from the spec: `loadOperand16bit` reads a little-endian 16-bit
value through the Bus (low byte first). -/
def loadOperand16 (s : CpuState) (a : Nat) : Nat :=
  busRead s a + 0x100 * busRead s (a + 1)

/-- Modelled from the spec: `loadZp16bit` reads a little-endian 16-bit
pointer from a zero-page location (the second byte staying in page zero). -/
def loadZp16 (s : CpuState) (zp : Nat) : Nat :=
  busRead s (zp % 0x100) + 0x100 * busRead s ((zp + 1) % 0x100)

/-- Modelled from the spec: `makeWord lo hi` assembles a 16-bit value from
a low and a high byte. -/
def makeWord (lo hi : Nat) : Nat := lo + 0x100 * hi

/-- `FLAG::set`: `P |= flag`. -/
def flagSet (p f : Nat) : Nat := p ||| f

/-- `FLAG::clear`: `P &= ~flag` (within the 8-bit status byte). -/
def flagClear (p f : Nat) : Nat := p &&& (0xFF ^^^ f)

/-- `FLAG::change(flag, b)`: set the flag when `b`, clear it otherwise. -/
def flagChange (p f : Nat) (b : Bool) : Nat :=
  if b then flagSet p f else flagClear p f

/-- `P[flag]`: test a status flag. -/
def flagTest (p f : Nat) : Bool := p &&& f != 0

/-- `SET_Z(result)`: Zero flag from `result == 0`. -/
def setZ (p v : Nat) : Nat := flagChange p F_ZERO (v == 0)

/-- `SET_N(result)`: Negative flag from bit 7 of the result. -/
def setN (p v : Nat) : Nat := flagChange p F_NEGATIVE (v &&& 0x80 != 0)

/-- `SET_NZ(result)`: `SET_N` then `SET_Z`. -/
def setNZ (p v : Nat) : Nat := setZ (setN p v) v

/-- Modelled from the spec: `alu_t::isOverflow()` from the missing
`datatype.h` — true when the value exceeds the 8-bit range, i.e. the 9-bit
result overflowed (the source's own comment at the compare instruction:
`if (temp>0xFF) ... C=1`, and `CpuTests` asserts `0x100` overflows). -/
def aluOverflow (t : Nat) : Bool := 0xFF < t

/-- `PUSH_8` / `PUSH_REG`: store the byte at `stack[SP]`, then decrement
`SP` with 8-bit wraparound. -/
def pushByte (s : CpuState) (v : Nat) : CpuState :=
  { s with stack := updateFn s.stack s.SP (v % 0x100),
           SP := (s.SP + 0xFF) % 0x100 }

/-- `PUSH_16` / `PUSH_PC`: decrement `SP`, store the 16-bit word
little-endian at `stack[SP]`/`stack[SP+1]`, decrement `SP` again. -/
def pushWord (s : CpuState) (w : Nat) : CpuState :=
  let sp1 := (s.SP + 0xFF) % 0x100
  let w16 := w % 0x10000
  { s with stack := updateFn (updateFn s.stack sp1 (w16 % 0x100)) (sp1 + 1) (w16 / 0x100),
           SP := (sp1 + 0xFF) % 0x100 }

/-- `pop()`: pre-increment `SP` with 8-bit wraparound and read
`stack[SP]`. -/
def popByte (s : CpuState) : Nat × CpuState :=
  let sp := (s.SP + 1) % 0x100
  (s.stack sp % 0x100, { s with SP := sp })

/-- `pop16bit()`: `SP += 2`, then read the little-endian word at
`stack[SP-1]`/`stack[SP]`. -/
def popWord (s : CpuState) : Nat × CpuState :=
  let sp := (s.SP + 2) % 0x100
  let lo := s.stack ((sp + 0xFF) % 0x100) % 0x100
  let hi := s.stack ((sp + 0xFF) % 0x100 + 1) % 0x100
  (lo + 0x100 * hi, { s with SP := sp })

/-- `doNMI()`: push `PC`, push the status register, load the NMI vector
into `PC`. -/
def doNMI (s : CpuState) : CpuState :=
  let s1 := pushWord s s.PC
  let s2 := pushByte s1 s1.P
  { s2 with PC := loadOperand16 s2 VECTOR_NMI }

/-- Result of the addressing-mode switch: the effective address, the
program counter after consuming the operand bytes, and the page-cross
extra-cycle signal `cycleAdd`. -/
structure AddrResult where
  addr : Nat
  PC : Nat
  cycleAdd : Nat
deriving Repr

/-- The addressing-mode resolution switch of `CpuExecOneInst`, entered with
the program counter already advanced past the opcode byte (`pc`).
`cycles` is the opcode's base cycle count `opinf.cycles`, consulted by the
page-cross penalty tests. -/
def resolveAddr (mode : AddrMode) (cycles : Nat) (s : CpuState) (pc : Nat) : AddrResult :=
  match mode with
  | AddrMode.ADR_IMP =>
      { addr := 0, PC := pc, cycleAdd := 0 }
  | AddrMode.ADR_ZP =>
      { addr := busRead s pc, PC := m16 (pc + 1), cycleAdd := 0 }
  | AddrMode.ADR_REL =>
      let d := busRead s pc
      let pc1 := m16 (pc + 1)
      let a := if d &&& 0x80 != 0 then m16 (d + pc1 + 0xFF00) else m16 (d + pc1)
      { addr := a, PC := pc1, cycleAdd := 0 }
  | AddrMode.ADR_ABS =>
      { addr := loadOperand16 s pc, PC := m16 (pc + 2), cycleAdd := 0 }
  | AddrMode.ADR_IMM =>
      { addr := pc, PC := m16 (pc + 1), cycleAdd := 0 }
  | AddrMode.ADR_ZPX =>
      { addr := (busRead s pc + s.X) &&& 0xFF, PC := m16 (pc + 1), cycleAdd := 0 }
  | AddrMode.ADR_ZPY =>
      { addr := (busRead s pc + s.Y) &&& 0xFF, PC := m16 (pc + 1), cycleAdd := 0 }
  | AddrMode.ADR_ABSX =>
      let base := loadOperand16 s pc
      let ca := if (base &&& 0xFF00) ≠ ((base + s.X) &&& 0xFF00) ∧ cycles = 4 then 1 else 0
      { addr := m16 (base + s.X), PC := m16 (pc + 2), cycleAdd := ca }
  | AddrMode.ADR_ABSY =>
      let base := loadOperand16 s pc
      let ca := if (base &&& 0xFF00) ≠ ((base + s.Y) &&& 0xFF00) ∧ cycles = 4 then 1 else 0
      { addr := m16 (base + s.Y), PC := m16 (pc + 2), cycleAdd := ca }
  | AddrMode.ADR_INDX =>
      let t := (busRead s pc + s.X) &&& 0xFF
      { addr := loadZp16 s t, PC := m16 (pc + 1), cycleAdd := 0 }
  | AddrMode.ADR_INDY =>
      let p := loadZp16 s (busRead s pc)
      let ca := if (p &&& 0xFF00) ≠ ((p + s.Y) &&& 0xFF00) ∧ cycles = 5 then 1 else 0
      { addr := m16 (p + s.Y), PC := m16 (pc + 1), cycleAdd := ca }
  | AddrMode.ADR_IND =>
      let p := loadOperand16 s pc
      let a := makeWord (busRead s p) (busRead s (((p + 1) &&& 0x00FF) ||| (p &&& 0xFF00)))
      { addr := a, PC := m16 (pc + 2), cycleAdd := 0 }

/-- `ASL` helper: carry from the MSB, shift left within 8 bits, `SET_NZ`. -/
def aslOp (v p : Nat) : Nat × Nat :=
  let p1 := flagChange p F_CARRY (v &&& 0x80 != 0)
  let v1 := v * 2 % 0x100
  (v1, setNZ p1 v1)

/-- `LSR` helper: carry from the LSB, shift right, `SET_Z`, clear sign. -/
def lsrOp (v p : Nat) : Nat × Nat :=
  let p1 := flagChange p F_CARRY (v &&& 0x1 != 0)
  let v1 := v / 2
  (v1, flagClear (setZ p1 v1) F_NEGATIVE)

/-- `ROL` helper: rotate left through carry, then `SET_NZ`. -/
def rolOp (v p : Nat) : Nat × Nat :=
  let newCarry := v &&& 0x80 != 0
  let v1 := (v * 2 + (if flagTest p F_CARRY then 1 else 0)) % 0x100
  let p1 := flagChange p F_CARRY newCarry
  (v1, setNZ p1 v1)

/-- `ROR` helper: rotate right through carry, then `SET_NZ`. -/
def rorOp (v p : Nat) : Nat × Nat :=
  let newCarry := v &&& 0x1 != 0
  let v1 := v / 2 + (if flagTest p F_CARRY then 0x80 else 0)
  let p1 := flagChange p F_CARRY newCarry
  (v1, setNZ p1 v1)

/-- The shared `jBranch` tail of all conditional branches: add 2 extra
cycles when the branch target is on a different page than the opcode
address, otherwise 1, and load the target into `PC`. -/
def branchTo (s : CpuState) (addr opaddr cycleAdd : Nat) : CpuState × Nat × Option Nat :=
  ({ s with PC := addr },
   cycleAdd + (if (opaddr ^^^ addr) &&& 0xFF00 != 0 then 2 else 1),
   none)

/-- The common tail of `CMP`/`CPX`/`CPY`: `temp = reg + 0x100 - value`,
carry from the 9-bit overflow, then `SET_NZ` of the truncated 8-bit
difference.  The unsigned ALU temporary is modelled at 16 bits; the
observable flag results are identical for any width of at least 9 bits. -/
def compareOp (s : CpuState) (reg addr : Nat) : CpuState :=
  let value := busRead s addr
  let temp := reg + 0x100 - value
  let p1 := flagChange s.P F_CARRY (aluOverflow temp)
  let temp2 := (temp + 0x10000 - 0x100) % 0x10000 &&& 0xFF
  { s with P := setNZ p1 temp2 }

/-- `INS_ADC` (the source jumps unconditionally over the BCD path, so only
the binary path is reachable): 9-bit sum of `A`, the memory operand and
the carry-in; Overflow from `!((A^value)&0x80) && ((A^temp)&0x80)`; Carry
from the 9-bit overflow; result wrapped into `A`; `SET_NZ`. -/
def adcExec (s : CpuState) (addr : Nat) : CpuState :=
  let value := busRead s addr
  let temp := s.A + value + (if flagTest s.P F_CARRY then 1 else 0)
  let p1 := flagChange s.P F_OVERFLOW
      ((s.A ^^^ value) &&& 0x80 == 0 && (s.A ^^^ temp) &&& 0x80 != 0)
  let p2 := flagChange p1 F_CARRY (aluOverflow temp)
  let a1 := temp % 0x100
  { s with A := a1, P := setNZ p2 a1 }

/-- `INS_SBC`: `temp = A - value - (carry ? 0 : 1)` in the unsigned ALU
temporary (modelled at 16 bits with wraparound; the observable flag and
register results are identical for any width of at least 9 bits); Carry
from the absence of 9-bit overflow; Overflow from
`((A^value)&0x80) && ((A^temp)&0x80)`; result wrapped into `A`; `SET_NZ`. -/
def sbcExec (s : CpuState) (addr : Nat) : CpuState :=
  let value := busRead s addr
  let temp := (s.A + 0x20000 - value - (if flagTest s.P F_CARRY then 0 else 1)) % 0x10000
  let p1 := flagChange s.P F_CARRY (!aluOverflow temp)
  let p2 := flagChange p1 F_OVERFLOW
      ((s.A ^^^ value) &&& 0x80 != 0 && (s.A ^^^ temp) &&& 0x80 != 0)
  let a1 := temp % 0x100
  { s with A := a1, P := setNZ p2 a1 }

/-- `INS_PHP`: push the raw status byte `ValueOf(P)`. -/
def phpExec (s : CpuState) : CpuState := pushByte s s.P

/-- `INS_PLP`: pop into `P`, then force the Reserved bit set. -/
def plpExec (s : CpuState) : CpuState :=
  let (v, s1) := popByte s
  { s1 with P := flagSet v F_NOTUSED }

/-- `INS_BRK`: advance `PC` past the padding byte, push `PC`, set Break in
the live status, push the status, set InterruptDisable, load the IRQ/BRK
vector. -/
def brkExec (s : CpuState) : CpuState :=
  let s1 := { s with PC := m16 (s.PC + 1) }
  let s2 := pushWord s1 s1.PC
  let s3 := { s2 with P := flagSet s2.P F_BREAK }
  let s4 := pushByte s3 s3.P
  let s5 := { s4 with P := flagSet s4.P F_INTERRUPT_OFF }
  { s5 with PC := loadOperand16 s5 VECTOR_IRQ }

/-- `INS_JSR`: decrement `PC` (address of the last byte of the JSR
instruction), push it, jump to the resolved address. -/
def jsrExec (s : CpuState) (addr : Nat) : CpuState :=
  let s1 := { s with PC := m16 (s.PC + 0xFFFF) }
  let s2 := pushWord s1 s1.PC
  { s2 with PC := addr }

/-- `INS_RTS`: pop a 16-bit `PC` from the stack and increment it. -/
def rtsExec (s : CpuState) : CpuState :=
  let (w, s1) := popWord s
  { s1 with PC := m16 (w + 1) }

/-- `INS_RTI`: pop the status (forcing Reserved set), then pop `PC` with
no adjustment. -/
def rtiExec (s : CpuState) : CpuState :=
  let (v, s1) := popByte s
  let s2 := { s1 with P := flagSet v F_NOTUSED }
  let (w, s3) := popWord s2
  { s3 with PC := w }

/-- The decode-and-execute switch of `CpuExecOneInst`.  `s` already has
`PC` advanced past the instruction; `addr` is the resolved effective
address, `opaddr` the address the opcode was fetched from, `cycleAdd` the
page-cross penalty so far.  Returns the new state, the final `cycleAdd`,
and the diagnostic emitted by the `default:` case (`Option`: the faulting
address printed by `printf`, which reports only the address). -/
def execInst (inst : Instr) (s : CpuState) (addr opaddr cycleAdd : Nat) :
    CpuState × Nat × Option Nat :=
  match inst with
  | Instr.INS_ADC => (adcExec s addr, cycleAdd, none)
  | Instr.INS_AND =>
      let value := busRead s addr
      let a1 := s.A &&& value
      ({ s with A := a1, P := setNZ s.P a1 }, cycleAdd, none)
  | Instr.INS_ASLA =>
      let (a1, p1) := aslOp s.A s.P
      ({ s with A := a1, P := p1 }, cycleAdd, none)
  | Instr.INS_ASL =>
      let value := busRead s addr
      let (v1, p1) := aslOp value s.P
      (busWrite { s with P := p1 } addr v1, cycleAdd, none)
  | Instr.INS_BCC =>
      if !flagTest s.P F_CARRY then branchTo s addr opaddr cycleAdd
      else (s, cycleAdd, none)
  | Instr.INS_BCS =>
      if flagTest s.P F_CARRY then branchTo s addr opaddr cycleAdd
      else (s, cycleAdd, none)
  | Instr.INS_BEQ =>
      if flagTest s.P F_ZERO then branchTo s addr opaddr cycleAdd
      else (s, cycleAdd, none)
  | Instr.INS_BMI =>
      if flagTest s.P F_NEGATIVE then branchTo s addr opaddr cycleAdd
      else (s, cycleAdd, none)
  | Instr.INS_BNE =>
      if !flagTest s.P F_ZERO then branchTo s addr opaddr cycleAdd
      else (s, cycleAdd, none)
  | Instr.INS_BPL =>
      if !flagTest s.P F_NEGATIVE then branchTo s addr opaddr cycleAdd
      else (s, cycleAdd, none)
  | Instr.INS_BVC =>
      if !flagTest s.P F_OVERFLOW then branchTo s addr opaddr cycleAdd
      else (s, cycleAdd, none)
  | Instr.INS_BVS =>
      if flagTest s.P F_OVERFLOW then branchTo s addr opaddr cycleAdd
      else (s, cycleAdd, none)
  | Instr.INS_BRK => (brkExec s, cycleAdd, none)
  | Instr.INS_BIT =>
      let value := busRead s addr
      let p1 := flagChange s.P F_NEGATIVE (value &&& 0x80 != 0)
      let p2 := flagChange p1 F_OVERFLOW (value &&& 0x40 != 0)
      let v2 := value &&& s.A
      ({ s with P := setZ p2 v2 }, cycleAdd, none)
  | Instr.INS_CLC => ({ s with P := flagClear s.P F_CARRY }, cycleAdd, none)
  | Instr.INS_CLD => ({ s with P := flagClear s.P F_BCD }, cycleAdd, none)
  | Instr.INS_CLI => ({ s with P := flagClear s.P F_INTERRUPT_OFF }, cycleAdd, none)
  | Instr.INS_CLV => ({ s with P := flagClear s.P F_OVERFLOW }, cycleAdd, none)
  | Instr.INS_CMP => (compareOp s s.A addr, cycleAdd, none)
  | Instr.INS_CPX => (compareOp s s.X addr, cycleAdd, none)
  | Instr.INS_CPY => (compareOp s s.Y addr, cycleAdd, none)
  | Instr.INS_DEC =>
      let value := busRead s addr
      let v1 := (value + 0xFF) % 0x100
      (busWrite { s with P := setNZ s.P v1 } addr v1, cycleAdd, none)
  | Instr.INS_DEX =>
      let x1 := (s.X + 0xFF) % 0x100
      ({ s with X := x1, P := setNZ s.P x1 }, cycleAdd, none)
  | Instr.INS_DEY =>
      let y1 := (s.Y + 0xFF) % 0x100
      ({ s with Y := y1, P := setNZ s.P y1 }, cycleAdd, none)
  | Instr.INS_EOR =>
      let value := busRead s addr
      let a1 := s.A ^^^ value
      ({ s with A := a1, P := setNZ s.P a1 }, cycleAdd, none)
  | Instr.INS_INC =>
      let value := busRead s addr
      let v1 := (value + 1) % 0x100
      (busWrite { s with P := setNZ s.P v1 } addr v1, cycleAdd, none)
  | Instr.INS_INX =>
      let x1 := (s.X + 1) % 0x100
      ({ s with X := x1, P := setNZ s.P x1 }, cycleAdd, none)
  | Instr.INS_INY =>
      let y1 := (s.Y + 1) % 0x100
      ({ s with Y := y1, P := setNZ s.P y1 }, cycleAdd, none)
  | Instr.INS_JMP => ({ s with PC := addr }, cycleAdd, none)
  | Instr.INS_JSR => (jsrExec s addr, cycleAdd, none)
  | Instr.INS_LDA =>
      let value := busRead s addr
      ({ s with A := value, P := setNZ s.P value }, cycleAdd, none)
  | Instr.INS_LDX =>
      let value := busRead s addr
      ({ s with X := value, P := setNZ s.P value }, cycleAdd, none)
  | Instr.INS_LDY =>
      let value := busRead s addr
      ({ s with Y := value, P := setNZ s.P value }, cycleAdd, none)
  | Instr.INS_LSR =>
      let value := busRead s addr
      let (v1, p1) := lsrOp value s.P
      (busWrite { s with P := p1 } addr v1, cycleAdd, none)
  | Instr.INS_LSRA =>
      let (a1, p1) := lsrOp s.A s.P
      ({ s with A := a1, P := p1 }, cycleAdd, none)
  | Instr.INS_NOP => (s, cycleAdd, none)
  | Instr.INS_ORA =>
      let value := busRead s addr
      let a1 := s.A ||| value
      ({ s with A := a1, P := setNZ s.P a1 }, cycleAdd, none)
  | Instr.INS_PHA => (pushByte s s.A, cycleAdd, none)
  | Instr.INS_PHP => (phpExec s, cycleAdd, none)
  | Instr.INS_PLA =>
      let (v, s1) := popByte s
      ({ s1 with A := v, P := setNZ s1.P v }, cycleAdd, none)
  | Instr.INS_PLP => (plpExec s, cycleAdd, none)
  | Instr.INS_ROL =>
      let value := busRead s addr
      let (v1, p1) := rolOp value s.P
      (busWrite { s with P := p1 } addr v1, cycleAdd, none)
  | Instr.INS_ROLA =>
      let (a1, p1) := rolOp s.A s.P
      ({ s with A := a1, P := p1 }, cycleAdd, none)
  | Instr.INS_ROR =>
      let value := busRead s addr
      let (v1, p1) := rorOp value s.P
      (busWrite { s with P := p1 } addr v1, cycleAdd, none)
  | Instr.INS_RORA =>
      let (a1, p1) := rorOp s.A s.P
      ({ s with A := a1, P := p1 }, cycleAdd, none)
  | Instr.INS_RTI => (rtiExec s, cycleAdd, none)
  | Instr.INS_RTS => (rtsExec s, cycleAdd, none)
  | Instr.INS_SBC => (sbcExec s addr, cycleAdd, none)
  | Instr.INS_SEC => ({ s with P := flagSet s.P F_CARRY }, cycleAdd, none)
  | Instr.INS_SED => ({ s with P := flagSet s.P F_BCD }, cycleAdd, none)
  | Instr.INS_SEI => ({ s with P := flagSet s.P F_INTERRUPT_OFF }, cycleAdd, none)
  | Instr.INS_STA => (busWrite s addr s.A, cycleAdd, none)
  | Instr.INS_STX => (busWrite s addr s.X, cycleAdd, none)
  | Instr.INS_STY => (busWrite s addr s.Y, cycleAdd, none)
  | Instr.INS_TAX => ({ s with X := s.A, P := setNZ s.P s.A }, cycleAdd, none)
  | Instr.INS_TAY => ({ s with Y := s.A, P := setNZ s.P s.A }, cycleAdd, none)
  | Instr.INS_TSX => ({ s with X := s.SP, P := setNZ s.P s.SP }, cycleAdd, none)
  | Instr.INS_TXA => ({ s with A := s.X, P := setNZ s.P s.X }, cycleAdd, none)
  | Instr.INS_TXS => ({ s with SP := s.X }, cycleAdd, none)
  | Instr.INS_TYA => ({ s with A := s.Y, P := setNZ s.P s.Y }, cycleAdd, none)
  | Instr.INS_UNKNOWN => (s, cycleAdd, some opaddr)

/-- Result of one call to `CpuExecOneInst`: the new state, the returned
cycle count (`cycleAdd + opinf.cycles`), the diagnostic emitted by the
illegal-opcode `default:` case (carrying the faulting address, the only
datum the `printf` receives), and whether the debug `assert(0)` on a
non-NMI latched interrupt was reached. -/
structure ExecResult where
  state : CpuState
  cycles : Nat
  illegalAt : Option Nat
  irqAssertFailed : Bool

/-- The fetch/decode/execute portion of `CpuExecOneInst` (everything after
the interrupt-latch check). -/
def execCore (po : Nat → OpInfo) (s : CpuState) : ExecResult :=
  let opaddr := s.PC
  let opcode := busRead s s.PC
  let opinf := po opcode
  let pc1 := m16 (s.PC + 1)
  let ar := resolveAddr opinf.addrmode opinf.cycles s pc1
  let s1 := { s with PC := ar.PC }
  let r := execInst opinf.inst s1 ar.addr opaddr ar.cycleAdd
  { state := r.1, cycles := r.2.1 + opinf.cycles, illegalAt := r.2.2,
    irqAssertFailed := false }

/-- Mark the debug `assert(0)` of the interrupt switch's `default:` case
as reached. -/
def markIrqAssert (r : ExecResult) : ExecResult :=
  { r with irqAssertFailed := true }

/-- `CpuExecOneInst`: consume the interrupt latch if set (running `doNMI`
for the NMI kind, hitting `assert(0)` for every other kind), then fetch,
decode and execute one instruction. -/
def CpuExecOneInst (po : Nat → OpInfo) (s : CpuState) : ExecResult :=
  if s.irqRequested then
    match s.irqType with
    | IRQ.NMI =>
        execCore po { doNMI s with irqRequested := false, irqType := IRQ.NONE }
    | _ =>
        markIrqAssert (execCore po { s with irqRequested := false, irqType := IRQ.NONE })
  else
    execCore po s

/-- `CpuRequestIRQ`: latch the request (last request wins, no queueing, no
gating of any kind). -/
def CpuRequestIRQ (type : IRQ) (s : CpuState) : CpuState :=
  { s with irqRequested := type ≠ IRQ.NONE, irqType := type }

/-- `maxCycles = 114`, the per-scanline cycle budget. -/
def maxCycles : Nat := 114

/-- The inner accounting loop of `CpuRunFrame`:
`while (cycles > maxCycles) { if (PpuHSync()) return 1; cycles -= maxCycles; }`.
The external `PpuHSync` results are supplied as a list of booleans, one
consumed per iteration.  Returns whether the frame-complete `return 1`
was taken, the cycle counter at loop exit, and the unconsumed hook
results. -/
def hsyncLoop : Nat → List Bool → Bool × Nat × List Bool
  | cycles, [] => (false, cycles, [])
  | cycles, h :: rest =>
      if cycles ≤ maxCycles then (false, cycles, h :: rest)
      else if h then (true, cycles, rest)
      else hsyncLoop (cycles - maxCycles) rest

/-- `CpuRunFrame`, fuelled: alternate the `hsyncLoop` accounting with
single-instruction execution until the synchronization hook reports frame
completion (or the fuel runs out, returning `none`). -/
def CpuRunFrame (po : Nat → OpInfo) : Nat → CpuState → List Bool →
    Option (CpuState × List Bool)
  | 0, _, _ => none
  | fuel + 1, s, hooks =>
      let r := hsyncLoop s.cycles hooks
      if r.1 then some ({ s with cycles := r.2.1 }, r.2.2)
      else
        let e := CpuExecOneInst po { s with cycles := r.2.1 }
        CpuRunFrame po fuel { e.state with cycles := e.state.cycles + e.cycles } r.2.2

/-- `CpuReset`: zero the registers, set `SP` to its maximum, clear the
status except the Reserved bit, clear the cycle counter and the interrupt
latch, and load `PC` from the reset vector. -/
def CpuReset (s : CpuState) : CpuState :=
  let s1 := { s with A := 0, X := 0, Y := 0, SP := 0xFF,
                     P := flagSet 0 F_NOTUSED, cycles := 0,
                     irqRequested := false, irqType := IRQ.NONE }
  { s1 with PC := loadOperand16 s1 VECTOR_RESET }

/-- Spec-side notion: the high byte (page number) of a 16-bit address. -/
def highByte (a : Nat) : Nat := a / 0x100 % 0x100

/-- Spec-side notion: the sign bit (bit 7) of a byte-sized value. -/
def signBit (v : Nat) : Nat := v / 0x80 % 2

/-- Convenience constructor for concrete test states (interrupt latch
idle, cycle counter zero). -/
def mkState (a x y sp p pc : Nat) (mem stack : Nat → Nat) : CpuState :=
  { A := a, X := x, Y := y, SP := sp, P := p, PC := pc, mem := mem,
    stack := stack, irqRequested := false, irqType := IRQ.NONE, cycles := 0 }

/-- An opcode table mapping every opcode to `NOP` (implied, 2 cycles). -/
def poNop : Nat → OpInfo := fun _ => ⟨Instr.INS_NOP, AddrMode.ADR_IMP, 2, 1⟩

/-- An opcode table mapping every opcode to the illegal-opcode tag. -/
def poIll : Nat → OpInfo := fun _ => ⟨Instr.INS_UNKNOWN, AddrMode.ADR_IMP, 2, 1⟩

/-- An opcode table with the real rows for `JSR $hhll` (`0x20`) and `RTS`
(`0x60`), everything else `NOP`. -/
def poJsrRts : Nat → OpInfo := fun op =>
  if op = 0x20 then ⟨Instr.INS_JSR, AddrMode.ADR_ABS, 6, 3⟩
  else if op = 0x60 then ⟨Instr.INS_RTS, AddrMode.ADR_IMP, 6, 1⟩
  else ⟨Instr.INS_NOP, AddrMode.ADR_IMP, 2, 1⟩

/-- An opcode table with the real rows for `PHP` (`0x08`) and `PLP`
(`0x28`), everything else `NOP`. -/
def poPhpPlp : Nat → OpInfo := fun op =>
  if op = 0x08 then ⟨Instr.INS_PHP, AddrMode.ADR_IMP, 3, 1⟩
  else if op = 0x28 then ⟨Instr.INS_PLP, AddrMode.ADR_IMP, 4, 1⟩
  else ⟨Instr.INS_NOP, AddrMode.ADR_IMP, 2, 1⟩

/-- Program image for the JSR/RTS round trip of the spec's test fixture:
`JSR $1234` at `$8000`, `RTS` at `$1234`. -/
def jsrMem : Nat → Nat := fun a =>
  if a = 0x8000 then 0x20 else if a = 0x8001 then 0x34 else
  if a = 0x8002 then 0x12 else if a = 0x1234 then 0x60 else 0

/-- Concrete state fetching the `JSR $1234` at `$8000`. -/
def jsrState : CpuState := mkState 0 0 0 0xFF 0x20 0x8000 jsrMem (fun _ => 0)

/-- Program image `PHP` at `$8000` then `PLP` at `$8001`. -/
def phpMem : Nat → Nat := fun a => if a = 0x8000 then 0x08 else 0x28

/-- Concrete state about to execute `PHP` with status `0xA1`
(Negative, Overflow, Reserved, Carry set; Break clear). -/
def phpState : CpuState := mkState 0 0 0 0xFF 0xA1 0x8000 phpMem (fun _ => 0)

/-- Concrete state with Break clear in the status, about to execute `PHP`. -/
def phpCexState : CpuState := mkState 0 0 0 0xFF 0x20 0x8000 phpMem (fun _ => 0)

/-- Concrete state with a latched NMI, InterruptDisable clear, all-zero
memory. -/
def nmiTestState : CpuState :=
  { mkState 0 0 0 0xFF 0x20 0x4000 (fun _ => 0) (fun _ => 0) with
      irqRequested := true, irqType := IRQ.NMI }

/-- Concrete state with InterruptDisable set in the status. -/
def intOffState : CpuState := mkState 0 0 0 0xFF 0x24 0x4000 (fun _ => 0) (fun _ => 0)

/-- Concrete state whose next opcode byte is `0x02` (an illegal opcode). -/
def illStateA : CpuState := mkState 0 0 0 0xFF 0x20 0x4000 (fun _ => 0x02) (fun _ => 0)

/-- Concrete state whose next opcode byte is `0x22` (another illegal
opcode) at the same address as `illStateA`. -/
def illStateB : CpuState := mkState 0 0 0 0xFF 0x20 0x4000 (fun _ => 0x22) (fun _ => 0)

/-- Concrete state for the `SBC` overflow counterexample: `A = 0x80`,
Carry set, memory operand `0x01`. -/
def sbcCexState : CpuState := mkState 0x80 0 0 0xFF 0x21 0 (fun _ => 0x01) (fun _ => 0)

/-- Concrete state for the `BRK` theorem witness. -/
def brkTestState : CpuState := mkState 0 0 0 0xFF 0x20 0x8000 (fun _ => 0) (fun _ => 0)

/-- Memory image for the indirect-jump page-wrap fixture: pointer operand
`$30FF` at `$8001`, low target byte at `$30FF`, candidate high bytes at
`$3000` and `$3100`. -/
def indMem : Nat → Nat := fun a =>
  if a = 0x8001 then 0xFF else if a = 0x8002 then 0x30 else
  if a = 0x30FF then 0x80 else if a = 0x3000 then 0x50 else
  if a = 0x3100 then 0x99 else 0

/-- Concrete state for the indirect-jump page-wrap fixture. -/
def indState : CpuState := mkState 0 0 0 0xFF 0x20 0x8000 indMem (fun _ => 0)

/-- Concrete state with the cycle counter already at 200 (well past the
114-cycle scanline budget). -/
def frameCexState : CpuState :=
  { mkState 0 0 0 0xFF 0x20 0x4000 (fun _ => 0) (fun _ => 0) with cycles := 200 }

/-- An opcode table mapping every opcode to `BRK` (implied, 7 cycles). -/
def poBrk : Nat → OpInfo := fun _ => ⟨Instr.INS_BRK, AddrMode.ADR_IMP, 7, 1⟩

/-- Property settled for claim C1: an NMI latch is consumed at the top of
`CpuExecOneInst` and the execution factors through `doNMI` (pushing `PC`
low-under-high, pushing the status unchanged — in particular leaving
InterruptDisable as it was — and loading the NMI vector) before the normal
fetch; any other latched kind is consumed with no interrupt sequence and
the debug assertion recorded. -/
def C1prop (po : Nat → OpInfo) (s : CpuState) : Prop :=
  (s.irqType = IRQ.NMI →
    CpuExecOneInst po s =
      execCore po { doNMI s with irqRequested := false, irqType := IRQ.NONE }
    ∧ (doNMI s).P = s.P
    ∧ (doNMI s).PC = loadOperand16 s VECTOR_NMI
    ∧ (doNMI s).stack ((s.SP + 0xFF) % 0x100) = s.PC % 0x100
    ∧ (doNMI s).stack ((s.SP + 0xFF) % 0x100 + 1) = s.PC / 0x100
    ∧ (doNMI s).stack ((s.SP + 0x1FE) % 0x100) = s.P % 0x100
    ∧ (doNMI s).SP = (s.SP + 0x2FD) % 0x100)
  ∧ (s.irqType ≠ IRQ.NMI →
    CpuExecOneInst po s =
      markIrqAssert (execCore po { s with irqRequested := false, irqType := IRQ.NONE }))

/-- Property settled for claim C2: interrupt requests are latched
unconditionally by `CpuRequestIRQ`; at the next instruction boundary an
NMI latch runs the interrupt sequence while a BRK-kind (maskable) latch
runs none, only recording the debug assertion. -/
def C2prop (po : Nat → OpInfo) (s : CpuState) : Prop :=
  (CpuRequestIRQ IRQ.NMI s).irqRequested = true
  ∧ (CpuRequestIRQ IRQ.BRK s).irqRequested = true
  ∧ CpuExecOneInst po (CpuRequestIRQ IRQ.NMI s) =
      execCore po { doNMI (CpuRequestIRQ IRQ.NMI s) with
                      irqRequested := false, irqType := IRQ.NONE }
  ∧ CpuExecOneInst po (CpuRequestIRQ IRQ.BRK s) =
      markIrqAssert (execCore po { s with irqRequested := false, irqType := IRQ.NONE })

/-- Property settled for claim C4: `PHP` pushes the raw status byte
(no bit forced), and `PHP` followed by `PLP` restores the status with only
the Reserved bit forced set, restoring the stack pointer. -/
def C4prop (po : Nat → OpInfo) (s : CpuState) : Prop :=
  (CpuExecOneInst po s).state.stack s.SP = s.P
  ∧ (CpuExecOneInst po (CpuExecOneInst po s).state).state.P = s.P ||| F_NOTUSED
  ∧ (CpuExecOneInst po (CpuExecOneInst po s).state).state.SP = s.SP

/-- Property settled for claim C5: Carry and Overflow outputs of `ADC` and
`SBC` in terms of the 9-bit unsigned result and the operands' sign bits. -/
def C5prop (s : CpuState) (addr : Nat) : Prop :=
  (flagTest (adcExec s addr).P F_CARRY =
    decide (0xFF < s.A + busRead s addr + (if flagTest s.P F_CARRY then 1 else 0)))
  ∧ (flagTest (adcExec s addr).P F_OVERFLOW =
      (decide (signBit s.A = signBit (busRead s addr))
        && decide (signBit s.A ≠ signBit ((s.A + busRead s addr
              + (if flagTest s.P F_CARRY then 1 else 0)) % 0x100))))
  ∧ ((adcExec s addr).A =
      (s.A + busRead s addr + (if flagTest s.P F_CARRY then 1 else 0)) % 0x100)
  ∧ (flagTest (sbcExec s addr).P F_CARRY =
      decide (busRead s addr + (if flagTest s.P F_CARRY then 0 else 1) ≤ s.A))
  ∧ (flagTest (sbcExec s addr).P F_OVERFLOW =
      (decide (signBit s.A ≠ signBit (busRead s addr))
        && decide (signBit s.A ≠ signBit ((sbcExec s addr).A))))
  ∧ ((sbcExec s addr).A =
      (s.A + 0x100 - busRead s addr - (if flagTest s.P F_CARRY then 0 else 1)) % 0x100)

/-- Property settled for claim C6: the illegal-opcode `default:` case
reports only the faulting address, leaves the machine state untouched
except for operand decoding's program-counter advance, and returns the
normal cycle count. -/
def C6prop (po : Nat → OpInfo) (s : CpuState) : Prop :=
  (CpuExecOneInst po s).illegalAt = some s.PC
  ∧ (CpuExecOneInst po s).state =
      { s with PC := (resolveAddr (po (busRead s s.PC)).addrmode
                        (po (busRead s s.PC)).cycles s (m16 (s.PC + 1))).PC }
  ∧ (CpuExecOneInst po s).cycles =
      (resolveAddr (po (busRead s s.PC)).addrmode
        (po (busRead s s.PC)).cycles s (m16 (s.PC + 1))).cycleAdd
      + (po (busRead s s.PC)).cycles
  ∧ (CpuExecOneInst po s).irqAssertFailed = false

/-- Property settled for claim C9: `JSR` pushes the address of its last
byte (opcode address plus 2) with the low byte below the high byte on the
descending stack and jumps; `RTS` pops it and adds one, landing on the
instruction after the `JSR` (opcode address plus 3) with the stack
pointer restored. -/
def C9prop (po : Nat → OpInfo) (s : CpuState) : Prop :=
  (CpuExecOneInst po s).state.PC = loadOperand16 s (m16 (s.PC + 1))
  ∧ (CpuExecOneInst po s).state.stack ((s.SP + 0xFF) % 0x100) = m16 (s.PC + 2) % 0x100
  ∧ (CpuExecOneInst po s).state.stack ((s.SP + 0xFF) % 0x100 + 1) = m16 (s.PC + 2) / 0x100
  ∧ (CpuExecOneInst po s).state.SP = (s.SP + 0x1FE) % 0x100
  ∧ (CpuExecOneInst po (CpuExecOneInst po s).state).state.PC = m16 (s.PC + 3)
  ∧ (CpuExecOneInst po (CpuExecOneInst po s).state).state.SP = s.SP

/-- Property settled for claim C10: after `BRK`, the live status register
has Break set (and InterruptDisable), and the pushed status copy is the
pre-BRK status with Break forced. -/
def C10prop (po : Nat → OpInfo) (s : CpuState) : Prop :=
  flagTest (CpuExecOneInst po s).state.P F_BREAK = true
  ∧ (CpuExecOneInst po s).state.P = s.P ||| F_BREAK ||| F_INTERRUPT_OFF
  ∧ (CpuExecOneInst po s).state.stack ((s.SP + 0x1FE) % 0x100) = (s.P ||| F_BREAK) % 0x100

end Nes

namespace Nes

/-! ### Bit-arithmetic bridging lemmas

These relate the masked `&&&`/`|||` expressions taken verbatim from the
source to the arithmetic (`/`, `%`) formulations the specification's
claims are phrased in. -/

theorem and_mask_mul (x m n : Nat) :
    x &&& (2 ^ m - 1) * 2 ^ n = x / 2 ^ n % 2 ^ m * 2 ^ n := by
  have h1 : (2 ^ m - 1) * 2 ^ n = (2 ^ m - 1) <<< n := by rw [Nat.shiftLeft_eq]
  have h2 : x / 2 ^ n % 2 ^ m * 2 ^ n = (x >>> n % 2 ^ m) <<< n := by
    rw [Nat.shiftLeft_eq, Nat.shiftRight_eq_div_pow]
  rw [h1, h2]
  apply Nat.eq_of_testBit_eq
  intro j
  simp only [Nat.testBit_and, Nat.testBit_shiftLeft, Nat.testBit_mod_two_pow,
    Nat.testBit_two_pow_sub_one, Nat.testBit_shiftRight]
  by_cases hj : n ≤ j
  · simp only [hj, decide_True, Bool.true_and, Nat.add_sub_cancel' hj]
    cases hb : Nat.testBit x j <;> simp [hb]
  · simp [hj]

theorem and_ff (x : Nat) : x &&& 0xFF = x % 0x100 := by
  have h := and_mask_mul x 8 0
  norm_num at h
  exact h

theorem and_ff00 (x : Nat) : x &&& 0xFF00 = x / 0x100 % 0x100 * 0x100 := by
  have h := and_mask_mul x 8 8
  norm_num at h
  exact h

theorem and_80 (x : Nat) : x &&& 0x80 = x / 0x80 % 2 * 0x80 := by
  have h := and_mask_mul x 1 7
  norm_num at h
  exact h

theorem or_low_high (l h : Nat) (hl : l < 0x100) :
    l ||| h * 0x100 = h * 0x100 + l := by
  have h2 : 2 ^ 8 * h + l = 2 ^ 8 * h ||| l := Nat.mul_add_lt_is_or (by omega) h
  have h3 : (2 : Nat) ^ 8 * h = h * 0x100 := by rw [Nat.mul_comm]; norm_num
  rw [h3] at h2
  rw [Nat.or_comm, ← h2]

theorem sign_xor_eq_zero (a b : Nat) :
    ((a ^^^ b) &&& 0x80 = 0) ↔ signBit a = signBit b := by
  rw [and_80]
  have hxor := Nat.testBit_xor a b 7
  rw [Nat.testBit_to_div_mod, Nat.testBit_to_div_mod, Nat.testBit_to_div_mod] at hxor
  norm_num at hxor
  unfold signBit
  norm_num
  have h1 : a / 128 % 2 = 0 ∨ a / 128 % 2 = 1 := by omega
  have h2 : b / 128 % 2 = 0 ∨ b / 128 % 2 = 1 := by omega
  rcases h1 with h1 | h1 <;> rcases h2 with h2 | h2 <;>
    simp [h1, h2] at hxor ⊢ <;> omega

end Nes

namespace Nes

/-! ### Status-flag calculus and other helper lemmas -/

theorem or_ne_zero_right (a f : Nat) (h1 : f ≠ 0) : a ||| f ≠ 0 := by
  intro hc
  obtain ⟨i, hi⟩ := Nat.ne_zero_implies_bit_true h1
  have ht := Nat.testBit_or a f i
  rw [hc] at ht
  simp [hi] at ht

theorem flagTest_change_other (p f g : Nat) (b : Bool)
    (h1 : f &&& g = 0) (h2 : (0xFF ^^^ f) &&& g = g) :
    flagTest (flagChange p f b) g = flagTest p g := by
  cases b
  · show flagTest (flagClear p f) g = flagTest p g
    unfold flagTest flagClear
    rw [Nat.and_assoc, h2]
  · show flagTest (flagSet p f) g = flagTest p g
    unfold flagTest flagSet
    rw [Nat.and_distrib_right, h1, Nat.or_zero]

theorem flagTest_change_self (p f : Nat) (b : Bool)
    (h1 : f ≠ 0) (h2 : (0xFF ^^^ f) &&& f = 0) :
    flagTest (flagChange p f b) f = b := by
  cases b
  · show flagTest (flagClear p f) f = false
    unfold flagTest flagClear
    rw [Nat.and_assoc, h2, Nat.and_zero]
    simp
  · show flagTest (flagSet p f) f = true
    unfold flagTest flagSet
    rw [Nat.and_distrib_right, Nat.and_self]
    simp only [bne_iff_ne, ne_eq]
    exact or_ne_zero_right _ _ h1

theorem flagTest_or_self (p f : Nat) (h1 : f ≠ 0) :
    flagTest (p ||| f) f = true := by
  unfold flagTest
  rw [Nat.and_distrib_right, Nat.and_self]
  simp only [bne_iff_ne, ne_eq]
  exact or_ne_zero_right _ _ h1

theorem flagTest_or_other (p f g : Nat) (h1 : g &&& f = 0) :
    flagTest (p ||| g) f = flagTest p f := by
  unfold flagTest
  rw [Nat.and_distrib_right, h1, Nat.or_zero]

theorem updateFn_same (f : Nat → Nat) (i v : Nat) : updateFn f i v i = v := by
  simp [updateFn]

theorem updateFn_other (f : Nat → Nat) (i v j : Nat) (h : j ≠ i) :
    updateFn f i v j = f j := by
  simp [updateFn, h]

theorem busRead_lt (s : CpuState) (a : Nat) : busRead s a < 0x100 := by
  unfold busRead
  omega

theorem loadOperand16_lt (s : CpuState) (a : Nat) : loadOperand16 s a < 0x10000 := by
  have h1 := busRead_lt s a
  have h2 := busRead_lt s (a + 1)
  unfold loadOperand16
  omega

theorem loadZp16_lt (s : CpuState) (a : Nat) : loadZp16 s a < 0x10000 := by
  have h1 := busRead_lt s (a % 0x100)
  have h2 := busRead_lt s ((a + 1) % 0x100)
  unfold loadZp16
  omega

theorem signBit_mod256 (t : Nat) : signBit (t % 0x100) = signBit t := by
  unfold signBit
  omega

theorem signEqBool (a b : Nat) :
    ((a ^^^ b) &&& 0x80 == 0) = decide (signBit a = signBit b) := by
  cases h : (a ^^^ b) &&& 0x80 == 0 with
  | false =>
      have h2 : (a ^^^ b) &&& 0x80 ≠ 0 := by simpa using h
      have h3 := (not_congr (sign_xor_eq_zero a b)).mp h2
      simp [h3]
  | true =>
      have h2 : (a ^^^ b) &&& 0x80 = 0 := by simpa using h
      have h3 := (sign_xor_eq_zero a b).mp h2
      simp [h3]

theorem signNeBool (a b : Nat) :
    ((a ^^^ b) &&& 0x80 != 0) = decide (signBit a ≠ signBit b) := by
  cases h : (a ^^^ b) &&& 0x80 == 0 with
  | false =>
      have h2 : (a ^^^ b) &&& 0x80 ≠ 0 := by simpa using h
      have h3 := (not_congr (sign_xor_eq_zero a b)).mp h2
      simp only [bne, h]
      simp [h3]
  | true =>
      have h2 : (a ^^^ b) &&& 0x80 = 0 := by simpa using h
      have h3 := (sign_xor_eq_zero a b).mp h2
      simp only [bne, h]
      simp [h3]

theorem exec_php_state (po : Nat → OpInfo) (s : CpuState)
    (h1 : s.irqRequested = false)
    (hop : po (busRead s s.PC) = ⟨Instr.INS_PHP, AddrMode.ADR_IMP, 3, 1⟩) :
    (CpuExecOneInst po s).state = pushByte { s with PC := m16 (s.PC + 1) } s.P := by
  unfold CpuExecOneInst execCore
  rw [h1]
  simp only [Bool.false_eq_true, if_false, hop]
  rfl

theorem exec_plp_state (po : Nat → OpInfo) (s : CpuState)
    (h1 : s.irqRequested = false)
    (hop : po (busRead s s.PC) = ⟨Instr.INS_PLP, AddrMode.ADR_IMP, 4, 1⟩) :
    (CpuExecOneInst po s).state = plpExec { s with PC := m16 (s.PC + 1) } := by
  unfold CpuExecOneInst execCore
  rw [h1]
  simp only [Bool.false_eq_true, if_false, hop]
  rfl

theorem exec_jsr_state (po : Nat → OpInfo) (s : CpuState)
    (h1 : s.irqRequested = false)
    (hop : po (busRead s s.PC) = ⟨Instr.INS_JSR, AddrMode.ADR_ABS, 6, 3⟩) :
    (CpuExecOneInst po s).state =
      jsrExec { s with PC := m16 (m16 (s.PC + 1) + 2) }
        (loadOperand16 s (m16 (s.PC + 1))) := by
  unfold CpuExecOneInst execCore
  rw [h1]
  simp only [Bool.false_eq_true, if_false, hop]
  rfl

theorem exec_rts_state (po : Nat → OpInfo) (s : CpuState)
    (h1 : s.irqRequested = false)
    (hop : po (busRead s s.PC) = ⟨Instr.INS_RTS, AddrMode.ADR_IMP, 6, 1⟩) :
    (CpuExecOneInst po s).state = rtsExec { s with PC := m16 (s.PC + 1) } := by
  unfold CpuExecOneInst execCore
  rw [h1]
  simp only [Bool.false_eq_true, if_false, hop]
  rfl

end Nes

namespace Nes

/-! ### Claim theorems -/

/-- Claim C1 (amended): when the latch holds an NMI, `CpuExecOneInst`
consumes the latch (to idle) and performs, before the normal opcode
fetch, the NMI sequence: push the program counter (low byte below high
byte), push the status register, and load the NMI vector into the program
counter.  The InterruptDisable flag is NOT set — the status register is
untouched by the sequence.  Latched kinds other than NMI are consumed
without any interrupt sequence, reaching the debug `assert(0)`. -/
theorem C1_nmi_sequence (po : Nat → OpInfo) (s : CpuState)
    (h1 : s.irqRequested = true) (hPC : s.PC < 0x10000) : C1prop po s := by
  unfold C1prop
  constructor
  · intro h2
    refine ⟨?_, ?_, ?_, ?_, ?_, ?_, ?_⟩
    · unfold CpuExecOneInst
      rw [h1, h2]
      rfl
    · simp only [doNMI, pushWord, pushByte]
    · simp only [doNMI, pushWord, pushByte, loadOperand16, busRead]
    · simp only [doNMI, pushWord, pushByte]
      rw [updateFn_other _ _ _ _ (by omega), updateFn_other _ _ _ _ (by omega),
        updateFn_same]
      omega
    · simp only [doNMI, pushWord, pushByte]
      rw [updateFn_other _ _ _ _ (by omega), updateFn_same]
      omega
    · simp only [doNMI, pushWord, pushByte]
      rw [show (s.SP + 0x1FE) % 0x100 = ((s.SP + 0xFF) % 0x100 + 0xFF) % 0x100 by omega,
        updateFn_same]
    · simp only [doNMI, pushWord, pushByte]
      omega
  · intro h2
    cases h3 : s.irqType with
    | NMI => exact absurd h3 h2
    | NONE =>
        unfold CpuExecOneInst
        rw [h1, h3]
        rfl
    | BRK =>
        unfold CpuExecOneInst
        rw [h1, h3]
        rfl
    | RST =>
        unfold CpuExecOneInst
        rw [h1, h3]
        rfl

/-- Claim C1 witness: the amended statement applied to a concrete state
with a latched NMI. -/
theorem C1_witness :
    nmiTestState.irqRequested = true ∧ nmiTestState.PC < 0x10000
    ∧ C1prop poNop nmiTestState :=
  ⟨rfl, by decide, C1_nmi_sequence poNop nmiTestState rfl (by decide)⟩

/-- Claim C1 counterexample: a latched NMI with InterruptDisable clear is
consumed, yet after `CpuExecOneInst` the InterruptDisable flag is still
clear — the interrupt sequence does not set it, contradicting the claim. -/
theorem C1_counterexample :
    nmiTestState.irqRequested = true ∧ nmiTestState.irqType = IRQ.NMI
    ∧ (CpuExecOneInst poNop nmiTestState).state.P &&& F_INTERRUPT_OFF = 0 :=
  ⟨rfl, rfl, by decide⟩

/-- Claim C2 (amended): `CpuRequestIRQ` latches any non-NONE kind
unconditionally — the InterruptDisable flag plays no gating role anywhere.
With InterruptDisable set, an NMI request still fires the full interrupt
sequence at the next instruction boundary, while a maskable (BRK-kind)
request is also latched (not dropped) and is consumed at the boundary
without any interrupt sequence, hitting the debug `assert(0)`. -/
theorem C2_irq_gating (po : Nat → OpInfo) (s : CpuState)
    (h : flagTest s.P F_INTERRUPT_OFF = true) : C2prop po s := by
  unfold C2prop
  exact ⟨rfl, rfl, rfl, rfl⟩

/-- Claim C2 witness: the amended statement applied to a concrete state
with InterruptDisable set. -/
theorem C2_witness :
    flagTest intOffState.P F_INTERRUPT_OFF = true ∧ C2prop poNop intOffState :=
  ⟨by decide, C2_irq_gating poNop intOffState (by decide)⟩

/-- Claim C2 counterexample: with InterruptDisable set, a maskable IRQ
request is NOT dropped — the latch is set (and holds the BRK kind) right
after the request, contradicting the claim that nothing remains queued. -/
theorem C2_counterexample :
    flagTest intOffState.P F_INTERRUPT_OFF = true
    ∧ (CpuRequestIRQ IRQ.BRK intOffState).irqRequested = true
    ∧ (CpuRequestIRQ IRQ.BRK intOffState).irqType = IRQ.BRK :=
  ⟨by decide, by decide, by decide⟩

/-- Claim C3 (amended): in `CpuRunFrame`, whenever the running cycle
counter exceeds the per-scanline budget the synchronization hook is
invoked; if it reports frame completion the loop returns immediately with
the counter UNCHANGED — the budget of that scanline is not subtracted —
otherwise the budget is subtracted from the counter (not reset to zero)
and the loop continues, so residual cycles carry over. -/
theorem C3_frame_budget (po : Nat → OpInfo) (fuel : Nat) (s : CpuState)
    (b : Bool) (rest : List Bool) (h : maxCycles < s.cycles) :
    CpuRunFrame po (fuel + 1) s (b :: rest) =
      (if b then some (s, rest)
       else CpuRunFrame po (fuel + 1) { s with cycles := s.cycles - maxCycles } rest) := by
  have hle : ¬ (s.cycles ≤ maxCycles) := Nat.not_le.2 h
  cases b
  · show CpuRunFrame po (fuel + 1) s (false :: rest) =
      CpuRunFrame po (fuel + 1) { s with cycles := s.cycles - maxCycles } rest
    unfold CpuRunFrame
    simp [hsyncLoop, hle]
  · show CpuRunFrame po (fuel + 1) s (true :: rest) = some (s, rest)
    unfold CpuRunFrame
    simp [hsyncLoop, hle]

/-- Claim C3 witness: the amended statement applied to a counter of 200
with the hook reporting no completion: the budget is subtracted, not
reset. -/
theorem C3_witness :
    maxCycles < frameCexState.cycles
    ∧ CpuRunFrame poNop 1 frameCexState (false :: []) =
        (if false then some (frameCexState, [])
         else CpuRunFrame poNop 1
           { frameCexState with cycles := frameCexState.cycles - maxCycles } []) :=
  ⟨by decide, C3_frame_budget poNop 0 frameCexState false [] (by decide)⟩

/-- Claim C3 counterexample: with the counter at 200 (budget 114) and the
hook reporting frame completion, `CpuRunFrame` returns with the counter
still at 200 — that scanline's budget subtraction has NOT been settled
(the claim predicts 86). -/
theorem C3_counterexample :
    (CpuRunFrame poNop 1 frameCexState (true :: [])).map (fun r => r.1.cycles) = some 200
    ∧ maxCycles < 200 ∧ (200 : Nat) ≠ 200 - maxCycles :=
  ⟨rfl, by decide, by decide⟩

/-- Claim C4 (amended): `PHP` pushes the status byte unchanged — neither
the Break nor the Reserved bit is forced by the push (the pushed Reserved
bit is set in practice only because the running status always carries
it); `PLP` forces the Reserved bit set after popping, with Break restored
from the popped byte.  Consequently `PHP` followed immediately by `PLP`
round-trips the status except that the Reserved bit is forced set, and
Break reflects exactly the live pre-push value. -/
theorem C4_php_plp (po : Nat → OpInfo) (s : CpuState)
    (h1 : s.irqRequested = false) (hP : s.P < 0x100) (hSP : s.SP < 0x100)
    (hop1 : po (busRead s s.PC) = ⟨Instr.INS_PHP, AddrMode.ADR_IMP, 3, 1⟩)
    (hop2 : po (busRead s (m16 (s.PC + 1))) = ⟨Instr.INS_PLP, AddrMode.ADR_IMP, 4, 1⟩) :
    C4prop po s := by
  have e1 := exec_php_state po s h1 hop1
  have h1b : (pushByte { s with PC := m16 (s.PC + 1) } s.P).irqRequested = false := h1
  have hop2b : po (busRead (pushByte { s with PC := m16 (s.PC + 1) } s.P)
      (pushByte { s with PC := m16 (s.PC + 1) } s.P).PC) =
      ⟨Instr.INS_PLP, AddrMode.ADR_IMP, 4, 1⟩ := hop2
  have e2 := exec_plp_state po _ h1b hop2b
  unfold C4prop
  rw [e1, e2]
  refine ⟨?_, ?_, ?_⟩
  · simp only [pushByte]
    rw [updateFn_same]
    omega
  · simp only [plpExec, popByte, pushByte, flagSet]
    rw [show ((s.SP + 0xFF) % 0x100 + 1) % 0x100 = s.SP by omega, updateFn_same]
    have h3 : s.P % 0x100 % 0x100 = s.P := by omega
    rw [h3]
  · simp only [plpExec, popByte, pushByte]
    omega

/-- Claim C4 witness: the amended statement applied to the concrete
program `PHP` at `$8000`, `PLP` at `$8001`, with status `0xA1`. -/
theorem C4_witness :
    phpState.irqRequested = false ∧ phpState.P < 0x100 ∧ phpState.SP < 0x100
    ∧ poPhpPlp (busRead phpState phpState.PC) = ⟨Instr.INS_PHP, AddrMode.ADR_IMP, 3, 1⟩
    ∧ poPhpPlp (busRead phpState (m16 (phpState.PC + 1))) = ⟨Instr.INS_PLP, AddrMode.ADR_IMP, 4, 1⟩
    ∧ C4prop poPhpPlp phpState :=
  ⟨rfl, by decide, by decide, by decide, by decide,
   C4_php_plp poPhpPlp phpState rfl (by decide) (by decide) (by decide) (by decide)⟩

/-- Claim C4 counterexample: with Break clear in the live status (`0x20`),
`PHP` pushes a byte with the Break bit clear — the Break bit is NOT
forced set in the pushed byte, contradicting the claim. -/
theorem C4_counterexample :
    (CpuExecOneInst poPhpPlp phpCexState).state.stack 0xFF &&& F_BREAK = 0
    ∧ F_BREAK ≠ 0 :=
  ⟨by decide, by decide⟩

end Nes

namespace Nes

/-- Claim C5 (amended): for every accumulator value, memory operand and
incoming Carry, `ADC` and `SBC` set the Carry flag iff the 9-bit unsigned
result overflows (for `SBC`, Carry set meaning no borrow), and set the
Overflow flag to signed two's-complement overflow — computed for `ADC` as
"both operands share a sign bit and the result's sign bit differs from
the accumulator's", but for `SBC` as "the two operands have DIFFERENT
sign bits and the result's sign bit differs from the accumulator's". -/
theorem C5_adc_sbc_flags (s : CpuState) (addr : Nat) (hA : s.A < 0x100) :
    C5prop s addr := by
  have hv := busRead_lt s addr
  unfold C5prop adcExec sbcExec
  simp only [setNZ, setZ, setN]
  refine ⟨?_, ?_, ?_, ?_, ?_, ?_⟩
  · rw [flagTest_change_other _ _ _ _ (by decide) (by decide),
      flagTest_change_other _ _ _ _ (by decide) (by decide),
      flagTest_change_self _ _ _ (by decide) (by decide)]
    unfold aluOverflow
    rfl
  · rw [flagTest_change_other _ _ _ _ (by decide) (by decide),
      flagTest_change_other _ _ _ _ (by decide) (by decide),
      flagTest_change_other _ _ _ _ (by decide) (by decide),
      flagTest_change_self _ _ _ (by decide) (by decide)]
    rw [signEqBool, signNeBool, signBit_mod256]
  · first | rfl | trivial
  · rw [flagTest_change_other _ _ _ _ (by decide) (by decide),
      flagTest_change_other _ _ _ _ (by decide) (by decide),
      flagTest_change_other _ _ _ _ (by decide) (by decide),
      flagTest_change_self _ _ _ (by decide) (by decide)]
    unfold aluOverflow
    rw [← decide_not]
    apply decide_eq_decide.mpr
    cases hC : flagTest s.P F_CARRY <;>
      simp only [hC, Bool.false_eq_true, if_false, if_true] <;> omega
  · rw [flagTest_change_other _ _ _ _ (by decide) (by decide),
      flagTest_change_other _ _ _ _ (by decide) (by decide),
      flagTest_change_self _ _ _ (by decide) (by decide)]
    rw [signNeBool, signNeBool, signBit_mod256]
  · cases hC : flagTest s.P F_CARRY <;>
      simp only [hC, Bool.false_eq_true, if_false, if_true] <;> omega

/-- Claim C5 witness: the amended statement applied to a concrete state
(`A = 0x80`, Carry set, operand `0x01`). -/
theorem C5_witness :
    sbcCexState.A < 0x100 ∧ C5prop sbcCexState 0 :=
  ⟨by decide, C5_adc_sbc_flags sbcCexState 0 (by decide)⟩

/-- Claim C5 counterexample: `SBC` with `A = 0x80`, operand `0x01` and
Carry set sets the Overflow flag although the two operands' sign bits
DIFFER — contradicting the claim's formula, which requires the operands
to share a sign bit for the Overflow flag to be set. -/
theorem C5_counterexample :
    flagTest (sbcExec sbcCexState 0).P F_OVERFLOW = true
    ∧ signBit sbcCexState.A ≠ signBit (busRead sbcCexState 0) :=
  ⟨by decide, by decide⟩

/-- Claim C6 (amended): executing an opcode whose table row carries the
illegal-instruction tag is non-fatal and recoverable: the diagnostic
carries the faulting opcode address — and ONLY the address; the opcode
byte is not part of the report — the machine state is left untouched
except for the program-counter advance of operand decoding (no
fall-through to an arbitrary instruction handler), and the function
returns its normal cycle count.  (In debug builds a legality assertion on
the opcode aborts before this path is reached.) -/
theorem C6_illegal_opcode (po : Nat → OpInfo) (s : CpuState)
    (h1 : s.irqRequested = false)
    (hop : (po (busRead s s.PC)).inst = Instr.INS_UNKNOWN) : C6prop po s := by
  unfold C6prop CpuExecOneInst execCore
  simp only [h1, Bool.false_eq_true, if_false, hop]
  refine ⟨?_, ?_, ?_, ?_⟩ <;> first | rfl | trivial

/-- Claim C6 witness: the amended statement applied to a concrete state
whose next opcode byte is illegal. -/
theorem C6_witness :
    illStateA.irqRequested = false
    ∧ (poIll (busRead illStateA illStateA.PC)).inst = Instr.INS_UNKNOWN
    ∧ C6prop poIll illStateA :=
  ⟨rfl, by decide, C6_illegal_opcode poIll illStateA rfl (by decide)⟩

/-- Claim C6 counterexample: two different illegal opcode bytes at the
same address produce identical diagnostics — the report does not contain
the opcode byte, contradicting the claim that the faulting opcode byte is
reported. -/
theorem C6_counterexample :
    (CpuExecOneInst poIll illStateA).illegalAt = (CpuExecOneInst poIll illStateB).illegalAt
    ∧ busRead illStateA illStateA.PC = 0x02
    ∧ busRead illStateB illStateB.PC = 0x22 :=
  ⟨by decide, by decide, by decide⟩

/-- Claim C7: in the absolute-indexed addressing modes the resolver
signals exactly one extra cycle iff the 16-bit index addition changes the
high byte of the address and the opcode's base cycle count is 4 (so never
for base-cycle-count-5 instructions); in indirect-indexed mode the extra
cycle is signalled iff adding `Y` to the dereferenced 16-bit zero-page
pointer changes the high byte and the base cycle count is 5. -/
theorem C7_page_cross_cycles (s : CpuState) (pc cyc : Nat) :
    ((resolveAddr AddrMode.ADR_ABSX cyc s pc).cycleAdd =
      if highByte (m16 (loadOperand16 s pc + s.X)) ≠ highByte (loadOperand16 s pc) ∧ cyc = 4
      then 1 else 0)
    ∧ ((resolveAddr AddrMode.ADR_ABSY cyc s pc).cycleAdd =
      if highByte (m16 (loadOperand16 s pc + s.Y)) ≠ highByte (loadOperand16 s pc) ∧ cyc = 4
      then 1 else 0)
    ∧ ((resolveAddr AddrMode.ADR_INDY cyc s pc).cycleAdd =
      if highByte (m16 (loadZp16 s (busRead s pc) + s.Y)) ≠ highByte (loadZp16 s (busRead s pc)) ∧ cyc = 5
      then 1 else 0) := by
  refine ⟨?_, ?_, ?_⟩
  · have hiff : (loadOperand16 s pc &&& 0xFF00 ≠ (loadOperand16 s pc + s.X) &&& 0xFF00 ∧ cyc = 4)
        ↔ (highByte (m16 (loadOperand16 s pc + s.X)) ≠ highByte (loadOperand16 s pc) ∧ cyc = 4) := by
      rw [and_ff00, and_ff00]
      unfold highByte m16
      omega
    simp only [resolveAddr, hiff]
  · have hiff : (loadOperand16 s pc &&& 0xFF00 ≠ (loadOperand16 s pc + s.Y) &&& 0xFF00 ∧ cyc = 4)
        ↔ (highByte (m16 (loadOperand16 s pc + s.Y)) ≠ highByte (loadOperand16 s pc) ∧ cyc = 4) := by
      rw [and_ff00, and_ff00]
      unfold highByte m16
      omega
    simp only [resolveAddr, hiff]
  · have hiff : (loadZp16 s (busRead s pc) &&& 0xFF00 ≠ (loadZp16 s (busRead s pc) + s.Y) &&& 0xFF00 ∧ cyc = 5)
        ↔ (highByte (m16 (loadZp16 s (busRead s pc) + s.Y)) ≠ highByte (loadZp16 s (busRead s pc)) ∧ cyc = 5) := by
      rw [and_ff00, and_ff00]
      unfold highByte m16
      omega
    simp only [resolveAddr, hiff]

/-- Claim C8: the plain-indirect (JMP) addressing mode reads the low byte
of the target at the 16-bit pointer and the high byte at
`(pointer & 0xFF00) | ((pointer + 1) & 0x00FF)` — arithmetically, at the
pointer's page base plus `(pointer + 1) mod 256` — so the high-byte fetch
wraps within the pointer's page instead of crossing into the next page
(a pointer of `$30FF` reads its high byte from `$3000`, not `$3100`). -/
theorem C8_indirect_page_wrap (s : CpuState) (pc cyc : Nat) :
    (resolveAddr AddrMode.ADR_IND cyc s pc).addr =
      busRead s (loadOperand16 s pc)
      + 0x100 * busRead s (loadOperand16 s pc / 0x100 * 0x100 + (loadOperand16 s pc + 1) % 0x100)
    ∧ highByte (loadOperand16 s pc / 0x100 * 0x100 + (loadOperand16 s pc + 1) % 0x100) =
        highByte (loadOperand16 s pc) := by
  have hp := loadOperand16_lt s pc
  constructor
  · simp only [resolveAddr, makeWord]
    rw [and_ff, and_ff00]
    rw [or_low_high _ _ (by omega)]
    rw [show loadOperand16 s pc / 0x100 % 0x100 * 0x100 + (loadOperand16 s pc + 1) % 0x100 =
      loadOperand16 s pc / 0x100 * 0x100 + (loadOperand16 s pc + 1) % 0x100 by omega]
  · unfold highByte
    omega

/-- Claim C9: `JSR` pushes the address of the last byte of the 3-byte JSR
instruction (the opcode address plus 2, not the next instruction's
address) as a 16-bit value — low byte below high byte on the descending
stack, i.e. the high byte pushed first — then jumps to the resolved
target; `RTS` pops that value and adds 1; so `JSR` immediately followed
by `RTS` leaves the program counter at exactly the instruction following
the `JSR` (opcode address plus 3), with the stack pointer restored. -/
theorem C9_jsr_rts (po : Nat → OpInfo) (s : CpuState)
    (h1 : s.irqRequested = false) (hSP : s.SP < 0x100)
    (hop1 : po (busRead s s.PC) = ⟨Instr.INS_JSR, AddrMode.ADR_ABS, 6, 3⟩)
    (hop2 : po (busRead s (loadOperand16 s (m16 (s.PC + 1)))) =
      ⟨Instr.INS_RTS, AddrMode.ADR_IMP, 6, 1⟩) :
    C9prop po s := by
  have e1 := exec_jsr_state po s h1 hop1
  have h1b : (jsrExec { s with PC := m16 (m16 (s.PC + 1) + 2) }
      (loadOperand16 s (m16 (s.PC + 1)))).irqRequested = false := h1
  have hop2b : po (busRead (jsrExec { s with PC := m16 (m16 (s.PC + 1) + 2) }
        (loadOperand16 s (m16 (s.PC + 1))))
      (jsrExec { s with PC := m16 (m16 (s.PC + 1) + 2) }
        (loadOperand16 s (m16 (s.PC + 1)))).PC) =
      ⟨Instr.INS_RTS, AddrMode.ADR_IMP, 6, 1⟩ := hop2
  have e2 := exec_rts_state po _ h1b hop2b
  unfold C9prop
  rw [e1, e2]
  have hw : m16 (m16 (m16 (s.PC + 1) + 2) + 0xFFFF) % 0x10000 = m16 (s.PC + 2) := by
    unfold m16
    omega
  refine ⟨?_, ?_, ?_, ?_, ?_, ?_⟩
  · simp only [jsrExec, pushWord]
  · simp only [jsrExec, pushWord]
    rw [updateFn_other _ _ _ _ (by omega), updateFn_same, hw]
  · simp only [jsrExec, pushWord]
    rw [updateFn_same, hw]
  · simp only [jsrExec, pushWord]
    omega
  · simp only [jsrExec, pushWord, rtsExec, popWord]
    rw [show ((((s.SP + 0xFF) % 0x100 + 0xFF) % 0x100 + 2) % 0x100 + 0xFF) % 0x100 =
      (s.SP + 0xFF) % 0x100 by omega]
    rw [updateFn_other _ _ _ _ (by omega), updateFn_same, updateFn_same, hw]
    unfold m16
    omega
  · simp only [jsrExec, pushWord, rtsExec, popWord]
    omega

/-- Claim C9 witness: the spec's literal fixture — `JSR $1234` fetched at
`$8000`, `RTS` at `$1234` — so that after the JSR/RTS pair the program
counter equals `$8003`. -/
theorem C9_witness :
    jsrState.irqRequested = false ∧ jsrState.SP < 0x100
    ∧ poJsrRts (busRead jsrState jsrState.PC) = ⟨Instr.INS_JSR, AddrMode.ADR_ABS, 6, 3⟩
    ∧ poJsrRts (busRead jsrState (loadOperand16 jsrState (m16 (jsrState.PC + 1)))) =
        ⟨Instr.INS_RTS, AddrMode.ADR_IMP, 6, 1⟩
    ∧ C9prop poJsrRts jsrState :=
  ⟨rfl, by decide, by decide, by decide,
   C9_jsr_rts poJsrRts jsrState rfl (by decide) (by decide) (by decide)⟩

/-- Claim C10: after executing `BRK`, the Break flag is set in the live
status register itself — it is set before the status byte is pushed (the
pushed copy equals the pre-BRK status with Break forced) and is never
cleared afterwards, so the running CPU's status register has Break set
following every `BRK`, not only the pushed copy on the stack. -/
theorem C10_brk_live_break (po : Nat → OpInfo) (s : CpuState)
    (h1 : s.irqRequested = false)
    (hop : po (busRead s s.PC) = ⟨Instr.INS_BRK, AddrMode.ADR_IMP, 7, 1⟩) :
    C10prop po s := by
  unfold C10prop CpuExecOneInst execCore
  simp only [h1, Bool.false_eq_true, if_false, hop]
  refine ⟨?_, ?_, ?_⟩
  · show flagTest ((execInst Instr.INS_BRK _ _ _ _).1.P) F_BREAK = true
    simp only [execInst, brkExec, pushWord, pushByte, flagSet]
    rw [flagTest_or_other _ _ _ (by decide)]
    exact flagTest_or_self _ _ (by decide)
  · simp only [execInst, brkExec, pushWord, pushByte, flagSet]
  · simp only [execInst, brkExec, pushWord, pushByte, flagSet]
    rw [show (s.SP + 0x1FE) % 0x100 =
      ((s.SP + 0xFF) % 0x100 + 0xFF) % 0x100 by omega, updateFn_same]

/-- Claim C10 witness: the statement applied to a concrete state about to
execute `BRK`. -/
theorem C10_witness :
    brkTestState.irqRequested = false
    ∧ poBrk (busRead brkTestState brkTestState.PC) = ⟨Instr.INS_BRK, AddrMode.ADR_IMP, 7, 1⟩
    ∧ C10prop poBrk brkTestState :=
  ⟨rfl, by decide, C10_brk_live_break poBrk brkTestState rfl (by decide)⟩

end Nes
